import Mathlib

/-!
Verification development for the course navigation-tab module
(`common/lib/xmodule/xmodule/tabs.py`): the polymorphic `CourseTab` model,
the `CourseTabList` aggregate with its structural validation, JSON
(de)serialization, the default initializer, and the displayable-tab iterator.

Machine model: JSON-like tab records are `TabDict` (optional fields model
present/absent dictionary keys); a concrete tab object is `CourseTab`;
the two link-function constructors `link_reverse_func` / `link_value_func`
are the two constructors of `LinkFunc`.  Fallible operations return
`Except String` where the Python raises `InvalidTabsException`.

The plugin registry (`CourseViewTypeManager` / `CourseViewType` classes from
`openedx.core.djangoapps.course_views`) is not part of this repository's
sources; it is modelled from the spec where definitions say so.
-/

namespace Tabs

/-- A value stored under one of a tab's dictionary-style keys (`name`,
`type`, `tab_id` are strings; `is_hidden` is a boolean). -/
inductive TabVal where
  | str (s : String)
  | bool (b : Bool)
deriving DecidableEq, Repr

/-- A JSON-like persisted tab record (the wire format of `tabs.py`).
An `Option` field that is `none` models an absent dictionary key. -/
structure TabDict where
  type : Option String
  name : Option String
  is_hidden : Option Bool
  link : Option String
deriving DecidableEq, Repr

/-- Membership of a key in `set(actual_dict.keys())` for a `TabDict`. -/
def TabDict.hasKey (d : TabDict) : String → Bool
  | "type" => d.type.isSome
  | "name" => d.name.isSome
  | "is_hidden" => d.is_hidden.isSome
  | "link" => d.link.isSome
  | _ => false

/-- `tab_dict.get(key)` (default `None`): the value stored under a key of the
record, or `none` when the key is absent. -/
def TabDict.getVal (d : TabDict) : String → Option TabVal
  | "type" => d.type.map TabVal.str
  | "name" => d.name.map TabVal.str
  | "is_hidden" => d.is_hidden.map TabVal.bool
  | "link" => d.link.map TabVal.str
  | _ => none

/-- `key_checker(expected_keys)` from tabs.py, in its boolean
(`raise_error=False`) form: all expected keys are present in the dict. -/
def key_checker (expected_keys : List String) (actual_dict : TabDict) : Bool :=
  expected_keys.all (fun k => actual_dict.hasKey k)

/-- `need_name` from tabs.py: the `name` key exists in the given dict. -/
def need_name (dictionary : TabDict) : Bool :=
  key_checker ["name"] dictionary

/-- A tab's link function: `link_reverse_func(reverse_name)` computes the URL
through the caller-supplied reverse-url function; `link_value_func(value)`
always returns the fixed value. -/
inductive LinkFunc where
  | reverse (reverse_name : String)
  | value (v : String)
deriving DecidableEq, Repr

/-- Applying a link function to a course id and a reverse-url callable,
exactly as `link_reverse_func` / `link_value_func` build their closures. -/
def LinkFunc.resolve : LinkFunc → String → (String → String → String) → String
  | .reverse reverse_name, course_id, reverse_url_func => reverse_url_func reverse_name course_id
  | .value v, _, _ => v

/-- Modelled from the spec: a registry entry (`CourseViewType` descriptor)
of the tab type registry, which lives outside this repository's sources.
Per spec §3 a descriptor carries the unique `type_name`, a default `title`,
a view identifier used to compute a link, and the `is_hideable` /
`is_collection` flags.  `link_is_value` records that the type's link
resolver is a fixed literal taken from the record's `link` field (the
External-Discussion type, spec §4.3); `requires_name` records that the
type's validator additionally requires the `name` key (spec §4.2). -/
structure CourseViewType where
  name : String
  title : String
  view_name : String
  is_hideable : Bool
  is_collection : Bool
  link_is_value : Bool
  requires_name : Bool
deriving DecidableEq, Repr

/-- Modelled from the spec: the process-wide registry contents for the
built-in tab types named by the spec (§1, §3, §4.4) — the required prefix
types, the three textbook collection types and their `single_textbook`
items, the two discussion types, wiki, progress, and the hideable notes
type.  Populated once, read-only thereafter. -/
def course_view_type_registry : List CourseViewType :=
  [⟨"courseware", "Courseware", "courseware", false, false, false, false⟩,
   ⟨"course_info", "Course Info", "info", false, false, false, false⟩,
   ⟨"syllabus", "Syllabus", "syllabus", false, false, false, false⟩,
   ⟨"textbooks", "Textbooks", "book", false, true, false, false⟩,
   ⟨"pdf_textbooks", "PDF Textbooks", "pdf_book", false, true, false, false⟩,
   ⟨"html_textbooks", "HTML Textbooks", "html_book", false, true, false, false⟩,
   ⟨"single_textbook", "Textbook", "book", false, false, false, false⟩,
   ⟨"discussion", "Discussion", "forum_form_discussion", false, false, false, false⟩,
   ⟨"external_discussion", "External Discussion", "", false, false, true, false⟩,
   ⟨"wiki", "Wiki", "course_wiki", false, false, false, false⟩,
   ⟨"progress", "Progress", "progress", false, false, false, false⟩,
   ⟨"notes", "My Notes", "notes", true, false, false, false⟩]

/-- Modelled from the spec: `CourseViewTypeManager.get_plugin(tab_type_name)`,
a read-only lookup by type name over the registry; an unknown (or absent)
name yields `none` (the Python `PluginError`, caught by the caller). -/
def CourseViewTypeManager.get_plugin (tab_type_name : Option String) : Option CourseViewType :=
  match tab_type_name with
  | none => none
  | some n => course_view_type_registry.find? (fun t => t.name == n)

/-- Modelled from the spec: a registered type's record validator
(`tab_type.validate(tab_dict)` in `CourseTab.from_json`); at minimum the
`type` key must be present, and types flagged `requires_name` additionally
require the `name` key (spec §4.2). -/
def CourseViewType.validate (tab_type : CourseViewType) (tab_dict : TabDict) : Bool :=
  key_checker (if tab_type.requires_name then ["type", "name"] else ["type"]) tab_dict

/-- A concrete course tab, as built by `CourseViewTab.__init__`: `name`
defaults to the type's title, `tab_id` and `type` are the type's name, the
hideable/collection flags are copied from the descriptor, `is_hidden`
defaults to `False`. -/
structure CourseTab where
  name : String
  tab_id : String
  link_func : LinkFunc
  type : String
  is_hideable : Bool
  is_hidden : Bool
  is_collection : Bool
deriving DecidableEq, Repr

/-- `CourseViewTab.__init__(course_view_type, tab_dict)` from tabs.py
(lines 204–214).  The link function is `link_reverse_func(view_name)`;
for the External-Discussion type (modelled from the spec, §4.3) it is the
fixed literal taken from the record's `link` field. -/
def CourseViewTab.make (course_view_type : CourseViewType) (tab_dict : TabDict) : CourseTab :=
  { name := tab_dict.name.getD course_view_type.title,
    tab_id := course_view_type.name,
    link_func :=
      if course_view_type.link_is_value then LinkFunc.value (tab_dict.link.getD "")
      else LinkFunc.reverse course_view_type.view_name,
    type := course_view_type.name,
    is_hideable := course_view_type.is_hideable,
    is_hidden := tab_dict.is_hidden.getD false,
    is_collection := course_view_type.is_collection }

/-- `CourseTab.__getitem__` (base keys, plus `is_hidden` from
`CourseViewTab.__getitem__`): a `KeyError` is an `Except.error`. -/
def CourseTab.getitem (t : CourseTab) (key : String) : Except String TabVal :=
  if key == "is_hidden" then Except.ok (TabVal.bool t.is_hidden)
  else if key == "name" then Except.ok (TabVal.str t.name)
  else if key == "type" then Except.ok (TabVal.str t.type)
  else if key == "tab_id" then Except.ok (TabVal.str t.tab_id)
  else Except.error ("Key " ++ key ++ " not present in tab")

/-- `CourseTab.get(key, default=None)` at its default: returns the item or
`none` when `__getitem__` raises `KeyError`. -/
def CourseTab.get (t : CourseTab) (key : String) : Option TabVal :=
  match t.getitem key with
  | Except.ok v => some v
  | Except.error _ => none

/-- `CourseTab.__eq__` where `other` is another tab object: `other.get` never
returns `None` for `name`/`type`, so equality is type-and-name equality. -/
def CourseTab.tab_eq (self other : CourseTab) : Bool :=
  ((other.get "name").isNone || other.get "name" == some (TabVal.str self.name)) &&
    other.get "type" == some (TabVal.str self.type)

/-- `CourseTab.__eq__` where `other` is a dict-type tab: the dict must pass
`self.validate` (the base `key_checker(['type'])`), the `name` check passes
when the dict has no `name` key, and the `type` values must match. -/
def CourseTab.dict_eq (self : CourseTab) (other : TabDict) : Bool :=
  if !key_checker ["type"] other then false
  else
    ((other.getVal "name").isNone || other.getVal "name" == some (TabVal.str self.name)) &&
      other.getVal "type" == some (TabVal.str self.type)

/-- `CourseTab.__ne__` (tab argument): the negation of `__eq__`. -/
def CourseTab.tab_ne (self other : CourseTab) : Bool :=
  !(self.tab_eq other)

/-- `CourseTab.__ne__` (dict argument): the negation of `__eq__`. -/
def CourseTab.dict_ne (self : CourseTab) (other : TabDict) : Bool :=
  !(self.dict_eq other)

/-- `CourseViewTab.to_json`: the base `{'type': ..., 'name': ...}` record,
with `is_hidden` added only when it is true. -/
def CourseTab.to_json (t : CourseTab) : TabDict :=
  { type := some t.type,
    name := some t.name,
    is_hidden := if t.is_hidden then some true else none,
    link := none }

/-- `CourseTab.from_json(tab_dict)` from tabs.py (lines 163–196): resolve the
`type` key through the registry; an unknown type is logged and yields no tab
(`Except.ok none`, not an error); a known type's validator may raise
`InvalidTabsException`; otherwise the concrete tab is constructed.  In this
model every registered type is a `CourseViewType`, so construction is
`CourseViewTab.make`. -/
def CourseTab.from_json (tab_dict : TabDict) : Except String (Option CourseTab) :=
  match CourseViewTypeManager.get_plugin tab_dict.type with
  | none => Except.ok none
  | some tab_type =>
      if tab_type.validate tab_dict then
        Except.ok (some (CourseViewTab.make tab_type tab_dict))
      else
        Except.error "InvalidTabsException: expected keys are not present in the given dict"

/-- An opaque user, as passed to the enablement/visibility checks; `none`
models Python's "no user supplied" (staff/author context). -/
structure User where
  username : String
deriving DecidableEq, Repr

/-- The configuration settings consulted by tab enablement rules (the feature
flags named in tabs.py's `is_enabled` docstring). -/
structure Settings where
  WIKI_ENABLED : Bool
  ENABLE_DISCUSSION_SERVICE : Bool
  ENABLE_EDXNOTES : Bool
  ENABLE_STUDENT_NOTES : Bool
  ENABLE_TEXTBOOK : Bool
deriving DecidableEq, Repr

/-- The course aggregate as seen by this module: the stored tab list, the
optional `discussion_link` and `syllabus_present` attributes (`none`
models an absent attribute), the per-kind textbook collections (each book
reduced to its title) and the course identifier used for link reversal. -/
structure Course where
  tabs : List CourseTab
  discussion_link : Option String
  syllabus_present : Option Bool
  textbooks : List String
  pdf_textbooks : List String
  html_textbooks : List String
  course_id : String
deriving DecidableEq, Repr

/-- Python truthiness of an optional string attribute: `None` and the empty
string are falsy. -/
def strTruthy : Option String → Bool
  | none => false
  | some s => !(s == "")

/-- Modelled from the spec: the per-type enablement rule
(`course_view_type.is_enabled`, spec §4.2 / §4.1) of the registered types,
keyed by type name; the base rule is always-true, wiki / discussion /
notes / textbook types consult the corresponding feature flags, and the
syllabus type consults the course's `syllabus_present` attribute. -/
def typeIsEnabled (type_name : String) (course : Course) (settings : Settings)
    (user : Option User) : Bool :=
  if type_name == "wiki" then settings.WIKI_ENABLED
  else if type_name == "discussion" then settings.ENABLE_DISCUSSION_SERVICE
  else if type_name == "notes" then settings.ENABLE_EDXNOTES || settings.ENABLE_STUDENT_NOTES
  else if type_name == "textbooks" || type_name == "pdf_textbooks"
      || type_name == "html_textbooks" then settings.ENABLE_TEXTBOOK
  else if type_name == "syllabus" then course.syllabus_present.getD false
  else true

/-- `CourseViewTab.is_enabled`: the base check (always true) conjoined with
the type's own enablement rule (the latter modelled from the spec, keyed by
the tab's type name, which equals its descriptor's name). -/
def CourseTab.is_enabled (tab : CourseTab) (course : Course) (settings : Settings)
    (user : Option User) : Bool :=
  true && typeIsEnabled tab.type course settings user

/-- A single-textbook item tab, as enumerated by a textbook collection tab:
`tab_id` is `"<book type>/<index>"`, the link reverses the per-kind view.
Modelled from the spec (§4.2: one "single textbook" tab per book) and the
repository's tests, since the collection types' `items` live outside these
sources. -/
def singleTextbookTab (book_type : String) (view_name : String) (index : Nat)
    (title : String) : CourseTab :=
  { name := title,
    tab_id := book_type ++ "/" ++ toString index,
    link_func := LinkFunc.reverse view_name,
    type := "single_textbook",
    is_hideable := false,
    is_hidden := false,
    is_collection := false }

/-- `CourseViewTab.items(course)`: the contained items of a collection tab,
recomputed from the course each call.  Modelled from the spec for the three
textbook collection types (one `single_textbook` tab per book, in book
order); a non-collection type has no items. -/
def CourseTab.items (tab : CourseTab) (course : Course) : List CourseTab :=
  if tab.type == "textbooks" then
    course.textbooks.enum.map (fun p => singleTextbookTab "textbook" "book" p.1 p.2)
  else if tab.type == "pdf_textbooks" then
    course.pdf_textbooks.enum.map (fun p => singleTextbookTab "pdftextbook" "pdf_book" p.1 p.2)
  else if tab.type == "html_textbooks" then
    course.html_textbooks.enum.map (fun p => singleTextbookTab "htmltextbook" "html_book" p.1 p.2)
  else []

/-- `tab.get('type')` as used by `validate_tabs`, which runs both over lists
of records and over lists of tab objects; the two instantiations of its
`getType` access are `TabDict.type` and `tabGetType`. -/
def tabGetType (t : CourseTab) : Option String :=
  some t.type

/-- `CourseTabList._validate_num_tabs_of_type(tabs, tab_type, max_num)`:
raise `InvalidTabsException` when the tabs whose `type` is `tab_type`
number more than `max_num`. -/
def CourseTabList.validate_num_tabs_of_type {α : Type} (getType : α → Option String)
    (tabs : List α) (tab_type : String) (max_num : Nat) : Except String Unit :=
  if tabs.countP (fun tab => getType tab == some tab_type) > max_num then
    Except.error ("Tab of type " ++ tab_type ++ " appears too many times.")
  else
    Except.ok ()

/-- The fixed list of singleton tab types checked by `validate_tabs`. -/
def singleton_tab_types : List String :=
  ["courseware", "course_info", "notes", "textbooks", "pdf_textbooks", "html_textbooks"]

/-- `CourseTabList.validate_tabs(tabs)` from tabs.py (lines 344–371),
generic over the duck-typed `.get('type')` access: `None` or empty passes;
fewer than two tabs, a first tab not of type `courseware`, a second tab not
of type `course_info`, or a repeated singleton type raises
`InvalidTabsException` (an `Except.error`). -/
def CourseTabList.validate_tabs {α : Type} (getType : α → Option String)
    (tabs : Option (List α)) : Except String Unit :=
  match tabs with
  | none => Except.ok ()
  | some ts =>
    match ts with
    | [] => Except.ok ()
    | [_] => Except.error "Expected at least two tabs."
    | t0 :: t1 :: _ =>
      if !(getType t0 == some "courseware") then
        Except.error "Expected first tab to have type courseware."
      else if !(getType t1 == some "course_info") then
        Except.error "Expected second tab to have type course_info."
      else
        singleton_tab_types.foldlM
          (fun _ tab_type => CourseTabList.validate_num_tabs_of_type getType ts tab_type 1) ()

/-- `CourseTabList.to_json(values)`: serialize each live tab through its own
`to_json` and pass already-serialized records through unchanged (the
source's third branch skips values of any other kind, which the sum type
cannot hold). -/
def CourseTabList.to_json (values : List (CourseTab ⊕ TabDict)) : List TabDict :=
  values.map (fun val =>
    match val with
    | Sum.inl tab => tab.to_json
    | Sum.inr d => d)

/-- The element-wise loop of `CourseTabList.from_json`: deserialize each
record through `CourseTab.from_json`, appending the tab when one is
produced and skipping the record when the factory returns no tab;
a record-level validation error aborts the whole load. -/
def CourseTabList.from_json_each : List TabDict → Except String (List CourseTab)
  | [] => Except.ok []
  | tab_dict :: rest => do
    let tab ← CourseTab.from_json tab_dict
    let tabs ← CourseTabList.from_json_each rest
    match tab with
    | some t => Except.ok (t :: tabs)
    | none => Except.ok tabs

/-- `CourseTabList.from_json(values)` from tabs.py (lines 403–413): validate
the whole list first, then deserialize element-wise. -/
def CourseTabList.from_json (values : List TabDict) : Except String (List CourseTab) := do
  CourseTabList.validate_tabs TabDict.type (some values)
  CourseTabList.from_json_each values

/-- `CourseTabList.get_tab_by_slug(tab_list, url_slug)`: first tab whose
`get('url_slug')` equals the given value, else not-found. -/
def CourseTabList.get_tab_by_slug (tab_list : List CourseTab) (url_slug : Option TabVal) :
    Option CourseTab :=
  tab_list.find? (fun tab => tab.get "url_slug" == url_slug)

/-- `CourseTabList.get_tab_by_type(tab_list, tab_type)`: first tab of the
given type, else not-found. -/
def CourseTabList.get_tab_by_type (tab_list : List CourseTab) (tab_type : String) :
    Option CourseTab :=
  tab_list.find? (fun tab => tab.type == tab_type)

/-- `CourseTabList.get_tab_by_id(tab_list, tab_id)`: first tab with the given
id, else not-found. -/
def CourseTabList.get_tab_by_id (tab_list : List CourseTab) (tab_id : String) :
    Option CourseTab :=
  tab_list.find? (fun tab => tab.tab_id == tab_id)

/-- `CourseTabList.get_discussion(course)` from tabs.py (lines 285–302): a
truthy `discussion_link` synthesizes a fresh External-Discussion tab through
`CourseTab.from_json` (overriding any stored tab); otherwise the first
stored tab of type `discussion` or `external_discussion`, or not-found. -/
def CourseTabList.get_discussion (course : Course) : Except String (Option CourseTab) :=
  if strTruthy course.discussion_link then
    CourseTab.from_json
      { type := some "external_discussion", name := some "External Discussion",
        is_hidden := none, link := course.discussion_link }
  else
    Except.ok (course.tabs.find?
      (fun tab => tab.type == "discussion" || tab.type == "external_discussion"))

/-- The per-tab filter of `iterate_displayable` (line 332): the tab is
enabled, and no user is supplied or the tab is not hideable or not hidden. -/
def displayFilter (course : Course) (settings : Settings) (user : Option User)
    (tab : CourseTab) : Bool :=
  tab.is_enabled course settings user && (user.isNone || !tab.is_hideable || !tab.is_hidden)

/-- The per-tab expansion of `iterate_displayable` (lines 333–342) for a tab
that passed the filter: a collection tab yields its items when inlining,
itself when not inlining and non-empty, and nothing when not inlining and
empty; a non-collection tab yields itself. -/
def displayExpand (course : Course) (inline_collections : Bool) (tab : CourseTab) :
    List CourseTab :=
  if tab.is_collection then
    if inline_collections then tab.items course
    else if (tab.items course).length > 0 then [tab]
    else []
  else [tab]

/-- `CourseTabList.iterate_displayable(course, settings, user,
inline_collections)` from tabs.py (lines 326–342), as the finite list it
yields: each stored tab, in order, is dropped by the filter or replaced by
its expansion. -/
def CourseTabList.iterate_displayable (course : Course) (settings : Settings)
    (user : Option User) (inline_collections : Bool) : List CourseTab :=
  course.tabs.flatMap (fun tab =>
    if displayFilter course settings user tab then
      displayExpand course inline_collections tab
    else [])

/-- The list of tabs appended by `CourseTabList.initialize_default(course)`
(tabs.py lines 251–283), keeping the source's construction through
`CourseTab.from_json`: Courseware, Course Info, Syllabus only when the
course declares one (`hasattr` + truthiness), Textbooks, the
External-Discussion override or the Discussion tab, Wiki, Progress.  The
factory never returns `none` for these registered built-in types, so the
model appends the produced tab directly. -/
def CourseTabList.initialize_default_tabs (course : Course) :
    Except String (List CourseTab) := do
  let t_courseware ← CourseTab.from_json
    { type := some "courseware", name := some "Courseware", is_hidden := none, link := none }
  let t_course_info ← CourseTab.from_json
    { type := some "course_info", name := some "Course Info", is_hidden := none, link := none }
  let syllabus_tabs ←
    if course.syllabus_present.getD false then do
      let t_syllabus ← CourseTab.from_json
        { type := some "syllabus", name := some "Syllabus", is_hidden := none, link := none }
      pure t_syllabus.toList
    else
      pure []
  let discussion_tab ←
    if strTruthy course.discussion_link then
      CourseTab.from_json
        { type := some "external_discussion", name := some "External Discussion",
          is_hidden := none, link := course.discussion_link }
    else
      CourseTab.from_json
        { type := some "discussion", name := some "Discussion", is_hidden := none, link := none }
  let t_textbooks ← CourseTab.from_json
    { type := some "textbooks", name := some "Textbooks", is_hidden := none, link := none }
  let t_wiki ← CourseTab.from_json
    { type := some "wiki", name := some "Wiki", is_hidden := none, link := none }
  let t_progress ← CourseTab.from_json
    { type := some "progress", name := some "Progress", is_hidden := none, link := none }
  Except.ok (t_courseware.toList ++ t_course_info.toList ++ syllabus_tabs
    ++ t_textbooks.toList ++ discussion_tab.toList ++ t_wiki.toList ++ t_progress.toList)

/-- `CourseTabList.initialize_default(course)`: extend the course's stored
tab list with the default tabs. -/
def CourseTabList.initialize_default (course : Course) : Except String Course := do
  let new_tabs ← CourseTabList.initialize_default_tabs course
  Except.ok { course with tabs := course.tabs ++ new_tabs }

/-- The tab produced by deserializing a tab's own serialization, when the
tab's type is registered (the identity-like round-trip map; the `none`
branch is never taken for a known type). -/
def roundTripTab (t : CourseTab) : CourseTab :=
  match CourseViewTypeManager.get_plugin (some t.type) with
  | some cvt => CourseViewTab.make cvt t.to_json
  | none => t

/-- The default Courseware tab appended by `initialize_default`. -/
def cwDefault : CourseTab :=
  ⟨"Courseware", "courseware", LinkFunc.reverse "courseware", "courseware", false, false, false⟩

/-- The default Course Info tab appended by `initialize_default`. -/
def ciDefault : CourseTab :=
  ⟨"Course Info", "course_info", LinkFunc.reverse "info", "course_info", false, false, false⟩

/-- The default Syllabus tab appended by `initialize_default`. -/
def sylDefault : CourseTab :=
  ⟨"Syllabus", "syllabus", LinkFunc.reverse "syllabus", "syllabus", false, false, false⟩

/-- The default Textbooks tab appended by `initialize_default`. -/
def tbDefault : CourseTab :=
  ⟨"Textbooks", "textbooks", LinkFunc.reverse "book", "textbooks", false, false, true⟩

/-- The default Discussion tab appended by `initialize_default` when the
course has no discussion link. -/
def discDefault : CourseTab :=
  ⟨"Discussion", "discussion", LinkFunc.reverse "forum_form_discussion", "discussion",
    false, false, false⟩

/-- The External-Discussion tab synthesized for a course whose
`discussion_link` is the given value. -/
def extDiscDefault (link : String) : CourseTab :=
  ⟨"External Discussion", "external_discussion", LinkFunc.value link, "external_discussion",
    false, false, false⟩

/-- The default Wiki tab appended by `initialize_default`. -/
def wikiDefault : CourseTab :=
  ⟨"Wiki", "wiki", LinkFunc.reverse "course_wiki", "wiki", false, false, false⟩

/-- The default Progress tab appended by `initialize_default`. -/
def progressDefault : CourseTab :=
  ⟨"Progress", "progress", LinkFunc.reverse "progress", "progress", false, false, false⟩

/-- A stored Textbooks collection tab (as deserialized from
`{'type': 'textbooks'}`), used as a concrete fixture. -/
def tbStored : CourseTab :=
  ⟨"Textbooks", "textbooks", LinkFunc.reverse "book", "textbooks", false, false, true⟩

/-- A stored, hidden notes tab (the hideable built-in type, with
`is_hidden` set), used as a concrete fixture. -/
def notesHidden : CourseTab :=
  ⟨"My Notes", "notes", LinkFunc.reverse "notes", "notes", true, true, false⟩

/-- A concrete course holding one Textbooks collection tab and one book. -/
def courseWithBook : Course :=
  ⟨[tbStored], none, none, ["Book0"], [], [], "course-v1"⟩

/-- A concrete course whose stored list is the minimal valid prefix plus a
hidden hideable notes tab. -/
def courseWithNotes : Course :=
  ⟨[cwDefault, ciDefault, notesHidden], none, none, [], [], [], "course-v1"⟩

/-- A settings object with every feature flag enabled. -/
def allFlagsOn : Settings :=
  ⟨true, true, true, true, true⟩

/-! ## Helper lemmas -/

theorem CourseTab.get_url_slug (t : CourseTab) : t.get "url_slug" = none := rfl

theorem CourseTab.get_name_val (t : CourseTab) : t.get "name" = some (TabVal.str t.name) := rfl

theorem CourseTab.get_type_val (t : CourseTab) : t.get "type" = some (TabVal.str t.type) := rfl

theorem except_pure_eq {ε α : Type} (a : α) : (pure a : Except ε α) = Except.ok a := rfl

theorem except_bind_ok {ε α β : Type} (a : α) (f : α → Except ε β) :
    (Except.ok a >>= f) = f a := rfl

theorem except_bind_error {ε α β : Type} (e : ε) (f : α → Except ε β) :
    ((Except.error e : Except ε α) >>= f) = Except.error e := rfl

/-- The singleton-type loop of `validate_tabs` passes exactly when every
checked type occurs at most once. -/
theorem foldlM_validate_ok {α : Type} (getType : α → Option String) (ts : List α)
    (tys : List String) :
    tys.foldlM (fun _ ty => CourseTabList.validate_num_tabs_of_type getType ts ty 1) () =
        Except.ok () ↔
      ∀ ty ∈ tys, ts.countP (fun t => getType t == some ty) ≤ 1 := by
  induction tys with
  | nil => simp [List.foldlM, except_pure_eq]
  | cons ty rest ih =>
    by_cases h : ts.countP (fun t => getType t == some ty) ≤ 1
    · have hok : CourseTabList.validate_num_tabs_of_type getType ts ty 1 = Except.ok () := by
        simp [CourseTabList.validate_num_tabs_of_type, Nat.not_lt.mpr h]
      simp [List.foldlM, hok, except_bind_ok, ih, h]
    · have herr : CourseTabList.validate_num_tabs_of_type getType ts ty 1 =
          Except.error ("Tab of type " ++ ty ++ " appears too many times.") := by
        simp [CourseTabList.validate_num_tabs_of_type, Nat.lt_of_not_le h]
      simp [List.foldlM, herr, except_bind_error, h]

/-- Full characterization of when `validate_tabs` passes on a present list. -/
theorem validate_tabs_ok_iff {α : Type} (getType : α → Option String) (ts : List α) :
    CourseTabList.validate_tabs getType (some ts) = Except.ok () ↔
      (ts = [] ∨
        (2 ≤ ts.length ∧ ts[0]?.bind getType = some "courseware" ∧
          ts[1]?.bind getType = some "course_info" ∧
          ∀ ty ∈ singleton_tab_types, ts.countP (fun t => getType t == some ty) ≤ 1)) := by
  cases ts with
  | nil => simp [CourseTabList.validate_tabs]
  | cons a l =>
    cases l with
    | nil => simp [CourseTabList.validate_tabs]
    | cons b r =>
      by_cases h0 : getType a = some "courseware"
      · by_cases h1 : getType b = some "course_info"
        · rw [show CourseTabList.validate_tabs getType (some (a :: b :: r)) =
              singleton_tab_types.foldlM
                (fun _ ty =>
                  CourseTabList.validate_num_tabs_of_type getType (a :: b :: r) ty 1) () by
            simp [CourseTabList.validate_tabs, h0, h1]]
          rw [foldlM_validate_ok]
          simp [h0, h1]
        · have : CourseTabList.validate_tabs getType (some (a :: b :: r)) =
              Except.error "Expected second tab to have type course_info." := by
            simp [CourseTabList.validate_tabs, h0, h1]
          simp [this, h0, h1]
      · have : CourseTabList.validate_tabs getType (some (a :: b :: r)) =
            Except.error "Expected first tab to have type courseware." := by
          simp [CourseTabList.validate_tabs, h0]
        simp [this, h0]

theorem registry_no_requires_name :
    ∀ cvt ∈ course_view_type_registry, cvt.requires_name = false := by decide

/-- A successful registry lookup yields an entry named by the looked-up
type name. -/
theorem get_plugin_some (n : String) :
    CourseViewTypeManager.get_plugin (some n) =
      course_view_type_registry.find? (fun t => t.name == n) := rfl

theorem get_plugin_name {x : Option String} {cvt : CourseViewType}
    (h : CourseViewTypeManager.get_plugin x = some cvt) :
    x = some cvt.name := by
  cases x with
  | none => exact absurd h (by simp [CourseViewTypeManager.get_plugin])
  | some n =>
    rw [get_plugin_some] at h
    have hp := List.find?_some h
    simp only [beq_iff_eq] at hp
    rw [hp]

/-- A record whose type resolves through the registry always passes the
resolved type's validator (the `type` key is present and no registered
type requires more). -/
theorem get_plugin_validate {d : TabDict} {cvt : CourseViewType}
    (h : CourseViewTypeManager.get_plugin d.type = some cvt) :
    cvt.validate d = true := by
  have hreq : cvt.requires_name = false := by
    cases hx : d.type with
    | none => exact absurd h (by simp [CourseViewTypeManager.get_plugin, hx])
    | some n =>
      refine registry_no_requires_name cvt ?_
      have hh := h
      rw [hx, get_plugin_some] at hh
      exact List.mem_of_find?_eq_some hh
  have htype : d.type.isSome = true := by
    cases hx : d.type with
    | none => exact absurd h (by simp [CourseViewTypeManager.get_plugin, hx])
    | some n => rfl
  simp [CourseViewType.validate, hreq, key_checker, TabDict.hasKey, htype]

theorem get_plugin_external :
    CourseViewTypeManager.get_plugin (some "external_discussion") =
      some ⟨"external_discussion", "External Discussion", "", false, false, true, false⟩ := rfl

/-- The element-wise phase of `CourseTabList.from_json` never fails in this
model (every registered type's validator passes on a record that resolved
through the registry): it keeps, in order, exactly the records whose type
is known, each deserialized through `CourseViewTab.make`. -/
theorem from_json_each_eq (values : List TabDict) :
    CourseTabList.from_json_each values =
      Except.ok (values.filterMap (fun d =>
        (CourseViewTypeManager.get_plugin d.type).map
          (fun cvt => CourseViewTab.make cvt d))) := by
  induction values with
  | nil => rfl
  | cons d rest ih =>
    cases h : CourseViewTypeManager.get_plugin d.type with
    | none =>
      simp [CourseTabList.from_json_each, CourseTab.from_json, h, ih, except_bind_ok,
        List.filterMap_cons]
    | some cvt =>
      have hv := get_plugin_validate h
      simp [CourseTabList.from_json_each, CourseTab.from_json, h, hv, ih, except_bind_ok,
        List.filterMap_cons]

theorem to_json_type (t : CourseTab) : (CourseTab.to_json t).type = some t.type := rfl

/-- Serializing a list of live tabs through the list-level `to_json` is the
element-wise tab serialization. -/
theorem to_json_map_inl (tabs : List CourseTab) :
    CourseTabList.to_json (tabs.map Sum.inl) = tabs.map CourseTab.to_json := by
  induction tabs with
  | nil => rfl
  | cons t rest ih =>
    simp only [CourseTabList.to_json, List.map_cons] at ih ⊢
    rw [ih]

/-- List-level validation transfers from live tabs to their serialized
records (serialization preserves the `type` value of every element). -/
theorem validate_to_json (tabs : List CourseTab)
    (h : CourseTabList.validate_tabs tabGetType (some tabs) = Except.ok ()) :
    CourseTabList.validate_tabs TabDict.type (some (tabs.map CourseTab.to_json)) =
      Except.ok () := by
  rw [validate_tabs_ok_iff] at h ⊢
  rcases h with h | ⟨hlen, h0, h1, hsing⟩
  · left
    simp [h]
  · right
    refine ⟨by simpa using hlen, ?_, ?_, ?_⟩
    · rw [List.getElem?_map]
      cases hx : tabs[0]? with
      | none => rw [hx] at h0; simp at h0
      | some a =>
        rw [hx] at h0
        simpa [tabGetType, to_json_type] using h0
    · rw [List.getElem?_map]
      cases hx : tabs[1]? with
      | none => rw [hx] at h1; simp at h1
      | some a =>
        rw [hx] at h1
        simpa [tabGetType, to_json_type] using h1
    · intro ty hty
      rw [List.countP_map]
      exact hsing ty hty

/-- Deserializing the serialization of a known-type tab gives a tab equal to
the original (under the tab's own `__eq__`) with the same `is_hidden`. -/
theorem roundTripTab_eq (t : CourseTab)
    (h : (CourseViewTypeManager.get_plugin (some t.type)).isSome = true) :
    t.tab_eq (roundTripTab t) = true ∧ (roundTripTab t).is_hidden = t.is_hidden := by
  cases hp : CourseViewTypeManager.get_plugin (some t.type) with
  | none => rw [hp] at h; simp at h
  | some cvt =>
    have htype : t.type = cvt.name := Option.some.inj (get_plugin_name hp)
    constructor
    · simp only [roundTripTab, hp]
      simp [CourseTab.tab_eq, CourseTab.get_name_val, CourseTab.get_type_val,
        CourseViewTab.make, CourseTab.to_json, htype]
    · simp only [roundTripTab, hp, CourseViewTab.make, CourseTab.to_json]
      cases t.is_hidden with
      | false => rfl
      | true => rfl

/-- The element-wise deserialization of a list of serialized known-type tabs
drops nothing: it is the element-wise round-trip map. -/
theorem filterMap_roundtrip (tabs : List CourseTab)
    (hknown : ∀ t ∈ tabs, (CourseViewTypeManager.get_plugin (some t.type)).isSome = true) :
    (tabs.map CourseTab.to_json).filterMap (fun d =>
        (CourseViewTypeManager.get_plugin d.type).map
          (fun cvt => CourseViewTab.make cvt d)) =
      tabs.map roundTripTab := by
  induction tabs with
  | nil => rfl
  | cons t rest ih =>
    have hk := hknown t (by simp)
    cases hp : CourseViewTypeManager.get_plugin (some t.type) with
    | none => rw [hp] at hk; simp at hk
    | some cvt =>
      have hrest : ∀ a ∈ rest, (CourseViewTypeManager.get_plugin (some a.type)).isSome = true :=
        fun a ha => hknown a (List.mem_cons_of_mem _ ha)
      simp only [List.map_cons, List.filterMap_cons]
      rw [show CourseViewTypeManager.get_plugin (CourseTab.to_json t).type = some cvt from hp]
      simp [roundTripTab, hp, ih hrest]

/-! ## Claim theorems -/

/-- C1: `validate_tabs` passes on `None` and on the empty list; on a
non-empty list it passes iff there are at least two entries, entry 0 has
type `courseware`, entry 1 has type `course_info`, and no singleton type
(`courseware`, `course_info`, `notes`, `textbooks`, `pdf_textbooks`,
`html_textbooks`) appears more than once; otherwise it raises
`InvalidTabsException` (an `Except.error`). -/
theorem validate_tabs_spec {α : Type} (getType : α → Option String) (tabs : List α) :
    (CourseTabList.validate_tabs getType (none : Option (List α)) = Except.ok () ∧
      CourseTabList.validate_tabs getType (some ([] : List α)) = Except.ok ()) ∧
    (tabs ≠ [] →
      ((CourseTabList.validate_tabs getType (some tabs) = Except.ok () ↔
          (2 ≤ tabs.length ∧ tabs[0]?.bind getType = some "courseware" ∧
            tabs[1]?.bind getType = some "course_info" ∧
            ∀ ty ∈ singleton_tab_types,
              tabs.countP (fun t => getType t == some ty) ≤ 1)) ∧
        (CourseTabList.validate_tabs getType (some tabs) ≠ Except.ok () →
          ∃ e, CourseTabList.validate_tabs getType (some tabs) = Except.error e))) := by
  refine ⟨⟨rfl, rfl⟩, fun hne => ⟨?_, ?_⟩⟩
  · rw [validate_tabs_ok_iff]
    simp [hne]
  · intro hno
    cases hv : CourseTabList.validate_tabs getType (some tabs) with
    | ok u => cases u; exact absurd hv hno
    | error e => exact ⟨e, rfl⟩

/-- Witness for C1: the minimal valid list `[courseware, course_info]`
passes `validate_tabs`, through the characterization (its conditions hold
by computation). -/
theorem validate_tabs_spec_witness :
    CourseTabList.validate_tabs TabDict.type
        (some [({ type := some "courseware", name := none, is_hidden := none,
                  link := none } : TabDict),
               { type := some "course_info", name := none, is_hidden := none,
                 link := none }]) =
      Except.ok () :=
  ((validate_tabs_spec TabDict.type
      [{ type := some "courseware", name := none, is_hidden := none, link := none },
       { type := some "course_info", name := none, is_hidden := none, link := none }]).2
    (by decide)).1.mpr (by decide)

/-- C7: when the list-level structural validation fails, the whole
`CourseTabList.from_json` load fails with that same validation error (the
source validates before its element-wise loop), so no tab list is produced
from a structurally invalid record sequence. -/
theorem from_json_invalid_spec (values : List TabDict) (e : String)
    (h : CourseTabList.validate_tabs TabDict.type (some values) = Except.error e) :
    CourseTabList.from_json values = Except.error e := by
  simp [CourseTabList.from_json, h, except_bind_error]

/-- Witness for C7: a list with the required prefix in the wrong order is
rejected whole, with the first-position validation error. -/
theorem from_json_invalid_witness :
    CourseTabList.from_json
        [{ type := some "course_info", name := none, is_hidden := none, link := none },
         { type := some "courseware", name := none, is_hidden := none, link := none }] =
      Except.error "Expected first tab to have type courseware." :=
  from_json_invalid_spec _ _ rfl

/-- C6: `CourseTab.from_json` on a record whose type is not registered
returns no tab without raising, and `CourseTabList.from_json` on a
structurally valid list yields exactly the tabs of the known-type records,
in their original relative order (`filterMap` keeps order and drops
unknown-type records). -/
theorem from_json_unknown_spec :
    (∀ d : TabDict, CourseViewTypeManager.get_plugin d.type = none →
      CourseTab.from_json d = Except.ok none) ∧
    (∀ values : List TabDict,
      CourseTabList.validate_tabs TabDict.type (some values) = Except.ok () →
      CourseTabList.from_json values =
        Except.ok (values.filterMap (fun d =>
          (CourseViewTypeManager.get_plugin d.type).map
            (fun cvt => CourseViewTab.make cvt d)))) := by
  constructor
  · intro d h
    simp [CourseTab.from_json, h]
  · intro values hval
    simp [CourseTabList.from_json, hval, except_bind_ok, from_json_each_eq]

/-- Witness for C6: the record `{"type": "unknown_widget"}` yields no tab,
and a valid list containing it alongside known entries deserializes to
exactly the known entries, in order. -/
theorem from_json_unknown_witness :
    CourseTab.from_json
        { type := some "unknown_widget", name := none, is_hidden := none, link := none } =
      Except.ok none ∧
    CourseTabList.from_json
        [{ type := some "courseware", name := none, is_hidden := none, link := none },
         { type := some "course_info", name := none, is_hidden := none, link := none },
         { type := some "unknown_widget", name := none, is_hidden := none, link := none },
         { type := some "wiki", name := none, is_hidden := none, link := none }] =
      Except.ok
        [⟨"Courseware", "courseware", LinkFunc.reverse "courseware", "courseware",
            false, false, false⟩,
         ⟨"Course Info", "course_info", LinkFunc.reverse "info", "course_info",
            false, false, false⟩,
         ⟨"Wiki", "wiki", LinkFunc.reverse "course_wiki", "wiki", false, false, false⟩] :=
  ⟨from_json_unknown_spec.1 _ rfl, from_json_unknown_spec.2 _ rfl⟩

/-- C5: with a truthy `discussion_link`, `get_discussion` returns a freshly
synthesized tab of type `external_discussion` whose resolved link is the
course's `discussion_link` value, whatever tabs are stored; with no
(or empty) `discussion_link` it returns the first stored tab of type
`discussion` or `external_discussion`, or not-found. -/
theorem get_discussion_spec (course : Course) :
    (strTruthy course.discussion_link = true →
      ∃ t : CourseTab,
        CourseTabList.get_discussion course = Except.ok (some t) ∧
        t.type = "external_discussion" ∧
        ∀ (course_id : String) (reverse_url_func : String → String → String),
          t.link_func.resolve course_id reverse_url_func = course.discussion_link.getD "") ∧
    (strTruthy course.discussion_link = false →
      CourseTabList.get_discussion course =
        Except.ok (course.tabs.find?
          (fun tab => tab.type == "discussion" || tab.type == "external_discussion"))) := by
  constructor
  · intro h
    refine ⟨CourseViewTab.make
        ⟨"external_discussion", "External Discussion", "", false, false, true, false⟩
        { type := some "external_discussion", name := some "External Discussion",
          is_hidden := none, link := course.discussion_link }, ?_, rfl, fun _ _ => rfl⟩
    simp [CourseTabList.get_discussion, h, CourseTab.from_json, get_plugin_external,
      CourseViewType.validate, key_checker, TabDict.hasKey]
  · intro h
    simp [CourseTabList.get_discussion, h]

/-- Witness for C5: a course with `discussion_link = "http://forum.example"`
and a stored `discussion` tab gets the synthesized external tab pointing at
that link, and a course with no link and no stored discussion tab gets
not-found. -/
theorem get_discussion_witness :
    (∃ t : CourseTab,
      CourseTabList.get_discussion
          ⟨[discDefault], some "http://forum.example", none, [], [], [], "cid"⟩ =
        Except.ok (some t) ∧
      t.type = "external_discussion" ∧
      ∀ (course_id : String) (reverse_url_func : String → String → String),
        t.link_func.resolve course_id reverse_url_func =
          (some "http://forum.example" : Option String).getD "") ∧
    CourseTabList.get_discussion ⟨[], none, none, [], [], [], "cid"⟩ = Except.ok none :=
  ⟨(get_discussion_spec ⟨[discDefault], some "http://forum.example", none, [], [], [], "cid"⟩).1
      rfl,
   (get_discussion_spec ⟨[], none, none, [], [], [], "cid"⟩).2 rfl⟩



/-- C10: no tab class of this module exposes a `url_slug` key, so
`get_tab_by_slug` never finds a match for a non-`None` slug (it returns
not-found without raising), and with `url_slug = None` every tab's
`get('url_slug')` equals the default `None`, so the first tab of a
non-empty list is returned. -/
theorem get_tab_by_slug_spec (tab_list : List CourseTab) (url_slug : Option TabVal) :
    CourseTabList.get_tab_by_slug tab_list url_slug =
      if url_slug.isNone then tab_list.head? else none := by
  cases url_slug with
  | none =>
    cases tab_list with
    | nil => rfl
    | cons a l => rfl
  | some v =>
    induction tab_list with
    | nil => rfl
    | cons a l ih =>
      simp [CourseTabList.get_tab_by_slug, List.find?, CourseTab.get_url_slug]

/-- C8: tab equality (`__eq__`) between a tab and another tab holds iff the
types match and the names match (a tab object always carries a name, so the
absent-name escape applies only on the record side); between a tab and a
plain record it holds iff the record carries a matching `type` and its
`name` is absent or matches; equality reads neither `tab_id` nor
`is_hidden` on either side; and `__ne__` is the exact negation. -/
theorem tab_equality_spec :
    (∀ self other : CourseTab,
      self.tab_eq other = true ↔ (other.type = self.type ∧ other.name = self.name)) ∧
    (∀ (self : CourseTab) (d : TabDict),
      self.dict_eq d = true ↔
        (d.type = some self.type ∧ (d.name = none ∨ d.name = some self.name))) ∧
    (∀ (self other : CourseTab) (i j : String) (b c : Bool),
      CourseTab.tab_eq { self with tab_id := i, is_hidden := b }
          { other with tab_id := j, is_hidden := c } = self.tab_eq other) ∧
    (∀ (self : CourseTab) (d : TabDict) (i : String) (b : Bool) (hid : Option Bool),
      CourseTab.dict_eq { self with tab_id := i, is_hidden := b } { d with is_hidden := hid } =
        self.dict_eq d) ∧
    (∀ self other : CourseTab, self.tab_ne other = !(self.tab_eq other)) ∧
    (∀ (self : CourseTab) (d : TabDict), self.dict_ne d = !(self.dict_eq d)) := by
  refine ⟨?_, ?_, ?_, ?_, fun _ _ => rfl, fun _ _ => rfl⟩
  · intro self other
    simp [CourseTab.tab_eq, CourseTab.get_name_val, CourseTab.get_type_val, and_comm]
  · intro self d
    cases htype : d.type with
    | none => simp [CourseTab.dict_eq, key_checker, TabDict.hasKey, htype]
    | some ty =>
      cases hname : d.name with
      | none =>
        simp [CourseTab.dict_eq, key_checker, TabDict.hasKey, TabDict.getVal, htype, hname]
      | some nm =>
        simp [CourseTab.dict_eq, key_checker, TabDict.hasKey, TabDict.getVal, htype, hname,
          and_comm]
  · intro self other i j b c
    simp [CourseTab.tab_eq, CourseTab.get, CourseTab.getitem]
  · intro self d i b hid
    simp [CourseTab.dict_eq, key_checker, TabDict.hasKey, TabDict.getVal]

/-- C2: for a structurally valid tab list whose entries all have registered
types, deserializing the serialization succeeds and yields a list
element-wise equal to the original under the tabs' own equality, with each
element's `is_hidden` restored; the serialized form suppresses the
`is_hidden` field whenever it is false. -/
theorem round_trip_spec (tabs : List CourseTab)
    (hvalid : CourseTabList.validate_tabs tabGetType (some tabs) = Except.ok ())
    (hknown : ∀ t ∈ tabs, (CourseViewTypeManager.get_plugin (some t.type)).isSome = true) :
    (∀ t ∈ tabs, (CourseTab.to_json t).is_hidden = if t.is_hidden then some true else none) ∧
    ∃ result : List CourseTab,
      CourseTabList.from_json (CourseTabList.to_json (tabs.map Sum.inl)) = Except.ok result ∧
      List.Forall₂ (fun a b => a.tab_eq b = true ∧ b.is_hidden = a.is_hidden) tabs result := by
  refine ⟨fun t _ => rfl, tabs.map roundTripTab, ?_, ?_⟩
  · rw [to_json_map_inl]
    have hv := validate_to_json tabs hvalid
    simp [CourseTabList.from_json, hv, except_bind_ok, from_json_each_eq,
      filterMap_roundtrip tabs hknown]
  · rw [List.forall₂_map_right_iff, List.forall₂_same]
    exact fun t ht => roundTripTab_eq t (hknown t ht)

/-- Witness for C2: the list `[courseware, course_info, hidden notes]`
round-trips, with the notes tab's `is_hidden=true` serialized and restored
and the other tabs' `is_hidden=false` suppressed. -/
theorem round_trip_witness :
    (∀ t ∈ [cwDefault, ciDefault, notesHidden],
      (CourseTab.to_json t).is_hidden = if t.is_hidden then some true else none) ∧
    ∃ result : List CourseTab,
      CourseTabList.from_json
          (CourseTabList.to_json ([cwDefault, ciDefault, notesHidden].map Sum.inl)) =
        Except.ok result ∧
      List.Forall₂ (fun a b => a.tab_eq b = true ∧ b.is_hidden = a.is_hidden)
        [cwDefault, ciDefault, notesHidden] result :=
  round_trip_spec [cwDefault, ciDefault, notesHidden] rfl (by decide)

/-- The default initializer produces exactly the fixed tab sequence, with
the syllabus tab and the discussion-variant chosen from the course's
attributes. -/
theorem initialize_default_tabs_eq (course : Course) :
    CourseTabList.initialize_default_tabs course =
      Except.ok ([cwDefault, ciDefault]
        ++ (if course.syllabus_present.getD false then [sylDefault] else [])
        ++ [tbDefault]
        ++ (if strTruthy course.discussion_link then
            [extDiscDefault (course.discussion_link.getD "")] else [discDefault])
        ++ [wikiDefault, progressDefault]) := by
  cases hs : course.syllabus_present.getD false <;>
    cases hd : strTruthy course.discussion_link <;>
      simp only [CourseTabList.initialize_default_tabs, hs, hd] <;> rfl

/-- C9: for a new course (empty stored list), `initialize_default` produces
Courseware, Course Info, Syllabus only when the course declares one,
Textbooks, External Discussion when the course has a discussion link and
otherwise Discussion, Wiki, Progress, in that fixed order — and the
produced list passes `validate_tabs`. -/
theorem initialize_default_spec (course : Course) (hempty : course.tabs = []) :
    ∃ new_course : Course,
      CourseTabList.initialize_default course = Except.ok new_course ∧
      new_course.tabs =
        [cwDefault, ciDefault]
          ++ (if course.syllabus_present.getD false then [sylDefault] else [])
          ++ [tbDefault]
          ++ (if strTruthy course.discussion_link then
              [extDiscDefault (course.discussion_link.getD "")] else [discDefault])
          ++ [wikiDefault, progressDefault] ∧
      CourseTabList.validate_tabs tabGetType (some new_course.tabs) = Except.ok () := by
  refine ⟨{ course with tabs := course.tabs ++
      ([cwDefault, ciDefault]
        ++ (if course.syllabus_present.getD false then [sylDefault] else [])
        ++ [tbDefault]
        ++ (if strTruthy course.discussion_link then
            [extDiscDefault (course.discussion_link.getD "")] else [discDefault])
        ++ [wikiDefault, progressDefault]) }, ?_, by simp [hempty], ?_⟩
  · simp [CourseTabList.initialize_default, initialize_default_tabs_eq, except_bind_ok]
  · simp only [hempty, List.nil_append]
    cases hs : course.syllabus_present.getD false <;>
      cases hd : strTruthy course.discussion_link <;> rfl

/-- Witness for C9: a course with a syllabus and a discussion link gets the
seven-tab default list, which validates. -/
theorem initialize_default_witness :
    ∃ new_course : Course,
      CourseTabList.initialize_default
          ⟨[], some "http://forum.example", some true, [], [], [], "cid"⟩ =
        Except.ok new_course ∧
      new_course.tabs =
        [cwDefault, ciDefault]
          ++ (if (some true : Option Bool).getD false then [sylDefault] else [])
          ++ [tbDefault]
          ++ (if strTruthy (some "http://forum.example") then
              [extDiscDefault ((some "http://forum.example" : Option String).getD "")]
            else [discDefault])
          ++ [wikiDefault, progressDefault] ∧
      CourseTabList.validate_tabs tabGetType (some new_course.tabs) = Except.ok () :=
  initialize_default_spec ⟨[], some "http://forum.example", some true, [], [], [], "cid"⟩ rfl

/-- C3 counterexample: an enabled, visible, stored collection tab (the
Textbooks tab of a course with one book, all feature flags on, no user
supplied) satisfies the claimed inclusion condition yet is not itself
yielded by `iterate_displayable` (default `inline_collections=True`
replaces it by its items), so inclusion is not "exactly when" the filter
holds. -/
theorem iterate_displayable_membership_cx :
    tbStored ∈ courseWithBook.tabs ∧
    tbStored.is_enabled courseWithBook allFlagsOn none = true ∧
    ((none : Option User).isNone || !tbStored.is_hideable || !tbStored.is_hidden) = true ∧
    tbStored ∉ CourseTabList.iterate_displayable courseWithBook allFlagsOn none true := by
  decide

/-- With no collection tabs stored, the displayable iteration is exactly the
filter by enablement and visibility. -/
theorem flatMap_no_collections (course : Course) (settings : Settings) (user : Option User)
    (inline_collections : Bool) (l : List CourseTab)
    (hnc : ∀ t ∈ l, t.is_collection = false) :
    (l.flatMap (fun tab =>
      if displayFilter course settings user tab then
        displayExpand course inline_collections tab
      else [])) = l.filter (displayFilter course settings user) := by
  induction l with
  | nil => rfl
  | cons a rest ih =>
    have ha := hnc a (by simp)
    have hrest : ∀ t ∈ rest, t.is_collection = false :=
      fun t ht => hnc t (List.mem_cons_of_mem _ ht)
    have hexp : displayExpand course inline_collections a = [a] := by
      simp [displayExpand, ha]
    rw [List.flatMap_cons, ih hrest, List.filter_cons]
    by_cases hf : displayFilter course settings user a = true
    · rw [if_pos hf, hexp, if_pos hf, List.singleton_append]
    · rw [if_neg hf, if_neg hf, List.nil_append]

/-- C3 (amended): for a stored list with no collection tabs, a tab is
yielded by `iterate_displayable` exactly when it is stored, enabled, and
(no user supplied, or not hideable, or not hidden); in particular a hidden
hideable enabled tab is yielded iff no user is supplied.  (Collection tabs
that pass the filter are represented by their items or suppressed, per the
counterexample.) -/
theorem iterate_displayable_membership (course : Course) (settings : Settings)
    (user : Option User) (inline_collections : Bool)
    (hnc : ∀ t ∈ course.tabs, t.is_collection = false) (tab : CourseTab) :
    (tab ∈ CourseTabList.iterate_displayable course settings user inline_collections ↔
      (tab ∈ course.tabs ∧ displayFilter course settings user tab = true)) ∧
    (tab.is_hideable = true → tab.is_hidden = true →
      tab.is_enabled course settings user = true →
      (tab ∈ CourseTabList.iterate_displayable course settings user inline_collections ↔
        (tab ∈ course.tabs ∧ user = none))) := by
  have hmain : tab ∈ CourseTabList.iterate_displayable course settings user inline_collections ↔
      (tab ∈ course.tabs ∧ displayFilter course settings user tab = true) := by
    rw [CourseTabList.iterate_displayable,
      flatMap_no_collections course settings user inline_collections course.tabs hnc,
      List.mem_filter]
  refine ⟨hmain, fun hh hhid hen => ?_⟩
  rw [hmain]
  have hdf : displayFilter course settings user tab = user.isNone := by
    simp [displayFilter, hen, hh, hhid]
  rw [hdf]
  constructor
  · rintro ⟨hm, hu⟩
    exact ⟨hm, Option.isNone_iff_eq_none.mp hu⟩
  · rintro ⟨hm, hu⟩
    subst hu
    exact ⟨hm, rfl⟩

/-- Witness for C3 (amended): over the collection-free list
`[courseware, course_info, hidden notes]`, the characterization applies
with and without a user, and the hidden hideable enabled notes tab is
yielded iff no user is supplied. -/
theorem iterate_displayable_membership_witness :
    (notesHidden ∈ CourseTabList.iterate_displayable courseWithNotes allFlagsOn
        (some ⟨"alice"⟩) true ↔
      (notesHidden ∈ courseWithNotes.tabs ∧
        displayFilter courseWithNotes allFlagsOn (some ⟨"alice"⟩) notesHidden = true)) ∧
    (notesHidden ∈ CourseTabList.iterate_displayable courseWithNotes allFlagsOn
        (some ⟨"alice"⟩) true ↔
      (notesHidden ∈ courseWithNotes.tabs ∧ (some (⟨"alice"⟩ : User) : Option User) = none)) ∧
    (notesHidden ∈ CourseTabList.iterate_displayable courseWithNotes allFlagsOn none true ↔
      (notesHidden ∈ courseWithNotes.tabs ∧ (none : Option User) = none)) :=
  ⟨(iterate_displayable_membership courseWithNotes allFlagsOn (some ⟨"alice"⟩) true
      (by decide) notesHidden).1,
   (iterate_displayable_membership courseWithNotes allFlagsOn (some ⟨"alice"⟩) true
      (by decide) notesHidden).2 rfl rfl rfl,
   (iterate_displayable_membership courseWithNotes allFlagsOn none true
      (by decide) notesHidden).2 rfl rfl rfl⟩

/-- Every item enumerated by a tab's `items` is a single-textbook tab, never
a collection. -/
theorem items_not_collection (tab : CourseTab) (course : Course) :
    ∀ t ∈ tab.items course, t.is_collection = false := by
  intro t ht
  simp only [CourseTab.items] at ht
  split at ht
  · obtain ⟨p, _, hp⟩ := List.mem_map.mp ht
    rw [← hp]
    rfl
  · split at ht
    · obtain ⟨p, _, hp⟩ := List.mem_map.mp ht
      rw [← hp]
      rfl
    · split at ht
      · obtain ⟨p, _, hp⟩ := List.mem_map.mp ht
        rw [← hp]
        rfl
      · simp at ht

/-- C4: `iterate_displayable` with `inline_collections=True` never yields a
collection tab (each passing collection tab is replaced by its items, which
are in the items' own order by construction of the expansion), and with
`inline_collections=False` it never yields a collection tab whose
`items(course)` is empty. -/
theorem iterate_displayable_collections_spec (course : Course) (settings : Settings)
    (user : Option User) :
    (∀ t ∈ CourseTabList.iterate_displayable course settings user true,
      t.is_collection = false) ∧
    (∀ t ∈ CourseTabList.iterate_displayable course settings user false,
      t.is_collection = true → t.items course ≠ []) := by
  constructor
  · intro t ht
    rw [CourseTabList.iterate_displayable, List.mem_flatMap] at ht
    obtain ⟨a, _, hta⟩ := ht
    by_cases hf : displayFilter course settings user a = true
    · rw [if_pos hf] at hta
      by_cases hc : a.is_collection = true
      · have hexp : displayExpand course true a = a.items course := by
          simp [displayExpand, hc]
        rw [hexp] at hta
        exact items_not_collection a course t hta
      · have hexp : displayExpand course true a = [a] := by
          simp [displayExpand, hc]
        rw [hexp, List.mem_singleton] at hta
        subst hta
        simpa using hc
    · rw [if_neg hf] at hta
      simp at hta
  · intro t ht htc
    rw [CourseTabList.iterate_displayable, List.mem_flatMap] at ht
    obtain ⟨a, _, hta⟩ := ht
    by_cases hf : displayFilter course settings user a = true
    · rw [if_pos hf] at hta
      by_cases hc : a.is_collection = true
      · by_cases hl : (a.items course).length > 0
        · have hexp : displayExpand course false a = [a] := by
            simp [displayExpand, hc, hl]
          rw [hexp, List.mem_singleton] at hta
          subst hta
          exact List.ne_nil_of_length_pos hl
        · have hexp : displayExpand course false a = [] := by
            simp [displayExpand, hc, hl]
          rw [hexp] at hta
          simp at hta
      · have hexp : displayExpand course false a = [a] := by
          simp [displayExpand, hc]
        rw [hexp, List.mem_singleton] at hta
        subst hta
        exact absurd htc hc
    · rw [if_neg hf] at hta
      simp at hta

/-- Witness for C4: with one stored Textbooks tab and one book, the inlined
iteration yields the non-collection single-textbook item, and the
non-inlined iteration yields only the non-empty collection tab. -/
theorem iterate_displayable_collections_witness :
    (singleTextbookTab "textbook" "book" 0 "Book0").is_collection = false ∧
    tbStored.items courseWithBook ≠ [] :=
  ⟨(iterate_displayable_collections_spec courseWithBook allFlagsOn none).1
      (singleTextbookTab "textbook" "book" 0 "Book0") (by decide),
   (iterate_displayable_collections_spec courseWithBook allFlagsOn none).2
      tbStored (by decide) (by decide)⟩

end Tabs
